import Mathlib

/-!
The sso-gateway middleware: the request-admission logic of `middleware/auth.go`

A shallow embedding of `AuthMiddleware.Handler`, `AuthMiddleware.GetUser` and
`AuthMiddleware.Logout`.  The session store, the reverse proxy, the route
provider and the SSO provider are collaborators of the middleware; their
answers are fields of the `AuthMiddleware` value, so every theorem quantifies
over all of them.  Logging (`log.Printf`) has no effect on the outcome and is
left out.
-/

namespace SsoGateway

/-! ## Strings

Go strings are byte sequences; here a string is the sequence of its
characters.  On well-formed UTF-8 text the prefix, suffix and equality tests
below agree with their byte-wise originals. -/

/-- Go `strings.HasPrefix(s, prefix)`:
`len(s) >= len(prefix) && s[:len(prefix)] == prefix`. -/
def HasPrefix (s pre : String) : Bool :=
  decide (pre.data.length ≤ s.data.length) && (s.data.take pre.data.length == pre.data)

/-- Go `strings.TrimPrefix(s, prefix)`: `s[len(prefix):]` when `s` has the
prefix, `s` otherwise. -/
def TrimPrefix (s pre : String) : String :=
  if HasPrefix s pre then String.mk (s.data.drop pre.data.length) else s

/-- Go `strings.HasSuffix(s, suffix)`:
`len(s) >= len(suffix) && s[len(s)-len(suffix):] == suffix`. -/
def HasSuffix (s suf : String) : Bool :=
  decide (suf.data.length ≤ s.data.length) &&
    (s.data.drop (s.data.length - suf.data.length) == suf.data)

/-! ## Static files -/

/-- The alternatives of the group in `staticFileRegex`, in source order. -/
def staticFileExtensions : List String :=
  ["ico", "jpg", "jpeg", "png", "gif", "svg", "js", "css", "swf", "eot", "ttf", "otf",
   "woff", "woff2"]

/-- The function `isStaticFile`: `staticFileRegex.MatchString(path)` for the
pattern `\.(ico|jpg|...|woff2)$`.  The pattern is unanchored on the left and
`$` (no multi-line flag) matches at the end of the text only, so a match
exists exactly when the text ends in a dot followed by one alternative. -/
def isStaticFile (path : String) : Bool :=
  staticFileExtensions.any fun ext => HasSuffix path ("." ++ ext)

/-! ## Sessions -/

/-- A dynamically typed Go value (`interface{}`), as far as the middleware
distinguishes dynamic types: a string, a boolean, or a value of another
type (an integer stands for those). -/
inductive Value where
  | str (s : String)
  | bool (b : Bool)
  | int (n : Int)
  deriving DecidableEq, Repr

/-- The map `session.Values` of type `map[interface{}]interface{}`, as an
association list with at most one entry per key in use. -/
abbrev ValueMap := List (Value × Value)

/-- Map read `m[k]`; `none` is the nil interface of a missing key. -/
def ValueMap.get (m : ValueMap) (k : Value) : Option Value :=
  (m.find? fun e => e.1 == k).map Prod.snd

/-- Map write `m[k] = v`. -/
def ValueMap.set (m : ValueMap) (k v : Value) : ValueMap :=
  (k, v) :: m.filter fun e => e.1 != k

/-- Type assertion `x.(bool)` in its two-result form: value and `ok`. -/
def assertBool : Option Value → Bool × Bool
  | some (.bool b) => (b, true)
  | _ => (false, false)

/-- Type assertion `x.(string)` in its two-result form: value and `ok`. -/
def assertString : Option Value → String × Bool
  | some (.str s) => (s, true)
  | _ => ("", false)

def SessionName : String := "cas_gateway_session"
def UserKey : Value := .str "user"
def IsAuthenticatedKey : Value := .str "authenticated"

/-- The fields of `sessions.Session` the middleware reads or writes:
`Values` and `Options.MaxAge`.  `Path` is `Options.Path`, which
`NewAuthMiddleware` sets to `"/"` and the middleware never writes; it stands
for the part of a session that `Handler` and `Logout` leave as it is. -/
structure Session where
  Values : ValueMap
  MaxAge : Int
  Path : String := "/"
  deriving DecidableEq, Repr

/-! ## Requests -/

/-- The fields of `url.URL` of a server-side request. -/
structure URL where
  Path : String
  RawQuery : String
  deriving DecidableEq, Repr

/-- Go `(*URL).String()` for a server-side request URL with no scheme, host
or fragment, `ForceQuery` unset, and a path in which `EscapedPath()` has
nothing to escape: the path, then `?` and the query when there is one.  For
other paths Go writes the escaped path; every theorem below that is not a
worked example holds for any value of this string. -/
def URL.String (u : URL) : String :=
  if u.RawQuery = "" then u.Path else u.Path ++ "?" ++ u.RawQuery

/-- The type `http.Header`, a map from canonical header names to value lists. -/
abbrev Header := List (String × List String)

/-- Go `Header.Get(key)`: the first value under the key, `""` when absent. -/
def Header.Get (h : Header) (key : String) : String :=
  match h.find? fun e => e.1 == key with
  | some (_, v :: _) => v
  | _ => ""

/-- Go `Header.Set(key, value)`: replaces whatever is stored under the key
by the single value.  Both keys the middleware sets are already canonical. -/
def Header.Set (h : Header) (key value : String) : Header :=
  (key, [value]) :: h.filter fun e => e.1 != key

/-- The fields of `http.Request` that the middleware or its collaborators see. -/
structure Request where
  Method : String
  URL : URL
  Header : Header
  Host : String
  RemoteAddr : String
  deriving DecidableEq, Repr

/-! ## Collaborators -/

/-- The type `models.RouteConfig`. -/
structure RouteConfig where
  Name : String
  Path : String
  Target : String
  deriving DecidableEq, Repr

/-- The fields of `auth.UserInfo` the middleware reads. -/
structure UserInfo where
  Oaid : String
  EmployeeName : String
  deriving DecidableEq, Repr

/-- The interface `auth.Provider`, as the middleware calls it. -/
structure Provider where
  IsLoginPath : String → Bool
  ExtractTicket : String → Except String String
  BuildServiceURL : Request → String → String
  ValidateTicket : String → String → Except String UserInfo
  GetLoginURL : String → String

/-- The session store: `Get(r, SessionName)` (the error is discarded by
every caller, and the registry hands back the same session for the same
request), and whether `session.Save(r, w)` returns a nil error. -/
structure CookieStore where
  Get : Request → Session
  Save : Request → Session → Bool

/-- The part of `proxy.ProxyManager` the middleware calls. -/
structure ProxyManager where
  GetRoute : Option RouteConfig

/-- The struct `AuthMiddleware`. -/
structure AuthMiddleware where
  store : CookieStore
  proxyManager : ProxyManager
  authProvider : Provider

/-- A call the middleware makes on a collaborator, in program order. -/
inductive Call where
  | GetRoute
  | GetProxy
  | StoreGet
  | IsLoginPath (url : String)
  | ExtractTicket (url : String)
  | BuildServiceURL (path : String)
  | ValidateTicket (ticket serviceURL : String)
  | GetLoginURL (serviceURL : String)
  | Save
  deriving DecidableEq, Repr

/-- How `Handler` answers a request. -/
inductive Response where
  /-- The call `next.ServeHTTP(w, r)` with the request as it is at that point. -/
  | next (r : Request)
  /-- The call `proxy.ServeHTTP(w, r)`. -/
  | proxy (r : Request)
  /-- The call `http.NotFound(w, r)`. -/
  | notFound
  /-- The call `http.Redirect(w, r, url, code)`. -/
  | redirect (url : String) (code : Nat)
  deriving DecidableEq, Repr

/-- Go `http.StatusFound`. -/
def StatusFound : Nat := 302

/-- What one run of `Handler` does: the response, the session handed to
`session.Save` (if `Save` was called), and the collaborator calls. -/
structure Result where
  response : Response
  saved : Option Session
  calls : List Call
  deriving DecidableEq, Repr

/-! ## The middleware -/

/-- The method `AuthMiddleware.GetUser`. -/
def GetUser (am : AuthMiddleware) (r : Request) : String :=
  let session := am.store.Get r
  let u := assertString (session.Values.get UserKey)
  if u.2 then u.1 else ""

/-- Lines 99-105 of `Handler`: the path of the request after the
prefix-stripping block, for route path `routePath` and request path `path`. -/
def stripRoutePrefix (routePath path : String) : String :=
  if routePath ≠ "" ∧ routePath ≠ "/" ∧ HasPrefix path routePath = true then
    let p := TrimPrefix path routePath
    if p = "" then "/" else p
  else path

/-- Lines 92-97 of `Handler`: the request headers after the identity-header
block, for the user returned by `GetUser`. -/
def setIdentityHeaders (session : Session) (user : String) (h : Header) : Header :=
  if user ≠ "" then
    let h1 := h.Set "X-User" user
    let e := assertString (session.Values.get (.str "employeeName"))
    if e.2 && decide (e.1 ≠ "") then h1.Set "X-Employee-Name" e.1 else h1
  else h

/-- Lines 123-127 of `Handler`: the session after the three writes that
follow a successful ticket validation. -/
def storeIdentity (session : Session) (userInfo : UserInfo) : Session :=
  let v1 := session.Values.set UserKey (.str userInfo.Oaid)
  let v2 := if userInfo.EmployeeName ≠ "" then
      v1.set (.str "employeeName") (.str userInfo.EmployeeName) else v1
  let v3 := v2.set IsAuthenticatedKey (.bool true)
  { session with Values := v3 }

/-- Lines 144-152 of `Handler`: the redirect to the login page, reached on
every fall-through; `calls` and `saved` are what happened before. -/
def redirectToLogin (am : AuthMiddleware) (r : Request) (route : RouteConfig)
    (saved : Option Session) (calls : List Call) : Result :=
  let servicePath := if route.Path = "" then "/" else route.Path
  let serviceURL := am.authProvider.BuildServiceURL r servicePath
  let loginURL := am.authProvider.GetLoginURL serviceURL
  { response := .redirect loginURL StatusFound
    saved := saved
    calls := calls ++ [.BuildServiceURL servicePath, .GetLoginURL serviceURL] }

/-- The request handler returned by `AuthMiddleware.Handler(next)`. -/
def Handler (am : AuthMiddleware) (r : Request) : Result :=
  if r.URL.Path = "/health" ∨ r.URL.Path = "/logout" then
    { response := .next r, saved := none, calls := [] }
  else
    match am.proxyManager.GetRoute with
    | none => { response := .notFound, saved := none, calls := [.GetRoute] }
    | some route =>
      if isStaticFile r.URL.Path then
        { response := .proxy r, saved := none, calls := [.GetRoute, .GetProxy] }
      else
        let session := am.store.Get r
        let a := assertBool (session.Values.get IsAuthenticatedKey)
        if a.2 && a.1 then
          let user := GetUser am r
          let r1 := { r with Header := setIdentityHeaders session user r.Header }
          let r2 := { r1 with URL := { r1.URL with Path := stripRoutePrefix route.Path r1.URL.Path } }
          { response := .next r2, saved := none, calls := [.GetRoute, .StoreGet, .StoreGet] }
        else
          let url := r.URL.String
          let c0 : List Call := [.GetRoute, .StoreGet, .IsLoginPath url]
          if am.authProvider.IsLoginPath url then
            match am.authProvider.ExtractTicket url with
            | .ok ticket =>
              let servicePath := if route.Path = "" then "/" else route.Path
              let serviceURL := am.authProvider.BuildServiceURL r servicePath
              let c1 := c0 ++ [.ExtractTicket url, .BuildServiceURL servicePath,
                .ValidateTicket ticket serviceURL]
              match am.authProvider.ValidateTicket ticket serviceURL with
              | .ok userInfo =>
                let session1 := storeIdentity session userInfo
                if am.store.Save r session1 then
                  let redirectPath := if servicePath = "/" then "" else servicePath
                  { response := .redirect redirectPath StatusFound
                    saved := some session1
                    calls := c1 ++ [.Save] }
                else
                  redirectToLogin am r route (some session1) (c1 ++ [.Save])
              | .error _ => redirectToLogin am r route none c1
            | .error _ => redirectToLogin am r route none (c0 ++ [.ExtractTicket url])
          else
            redirectToLogin am r route none c0

/-- The method `AuthMiddleware.Logout`: the session it hands to
`session.Save` (whose error it discards).  It writes no response of its own. -/
def Logout (am : AuthMiddleware) (r : Request) : Session :=
  let session := am.store.Get r
  let session1 := { session with Values := [] }
  let session2 := { session1 with MaxAge := -1 }
  session2

/-! ## Predicates used in the statements -/

/-- The session holds the boolean `true` under the key `"authenticated"`. -/
def Session.Authenticated (s : Session) : Prop :=
  s.Values.get IsAuthenticatedKey = some (Value.bool true)

instance (s : Session) : Decidable s.Authenticated := by
  unfold Session.Authenticated; infer_instance

/-- The request path is one of the two exempt paths. -/
def Exempt (r : Request) : Prop :=
  r.URL.Path = "/health" ∨ r.URL.Path = "/logout"

instance (r : Request) : Decidable (Exempt r) := by
  unfold Exempt; infer_instance

/-- The response hands the request on, to `next` or to the proxy. -/
def Response.isForward : Response → Bool
  | .next _ => true
  | .proxy _ => true
  | _ => false

/-- The response is a redirect with status 302. -/
def Response.isRedirect302 : Response → Bool
  | .redirect _ code => code == 302
  | _ => false

/-- The path `servicePath` of lines 115-118 and 145-148: the route path, or
`"/"` when the route path is empty. -/
def servicePathOf (route : RouteConfig) : String :=
  if route.Path = "" then "/" else route.Path

/-! ## Concrete collaborators for the worked examples -/

/-- A route mounted at `/app`. -/
def exRoute : RouteConfig := { Name := "app", Path := "/app", Target := "http://backend:8080" }

/-- An SSO provider: the callback is `/app?ticket=...`, the one valid ticket
is `ST-1` and it belongs to `userInfo`. -/
def exProvider (userInfo : UserInfo) : Provider where
  IsLoginPath url := HasPrefix url "/app?ticket="
  ExtractTicket url :=
    if HasPrefix url "/app?ticket=" then .ok (TrimPrefix url "/app?ticket=")
    else .error "ticket not found"
  BuildServiceURL r path := "http://" ++ r.Host ++ path
  ValidateTicket ticket _ := if ticket = "ST-1" then .ok userInfo else .error "invalid ticket"
  GetLoginURL serviceURL := "https://sso.example/login?service=" ++ serviceURL

/-- A middleware whose store loads `session` for every request and whose
`Save` succeeds exactly when `saveOk`. -/
def exMiddleware (route : Option RouteConfig) (session : Session) (saveOk : Bool)
    (userInfo : UserInfo) : AuthMiddleware where
  store := { Get := fun _ => session, Save := fun _ _ => saveOk }
  proxyManager := { GetRoute := route }
  authProvider := exProvider userInfo

/-- A `GET` request for `path?query` with the given headers. -/
def exRequest (path query : String) (header : Header) : Request :=
  { Method := "GET", URL := { Path := path, RawQuery := query }, Header := header,
    Host := "gw.example", RemoteAddr := "10.0.0.7:4711" }

/-- The empty session a first-time visitor gets. -/
def emptySession : Session := { Values := [], MaxAge := 604800 }

/-- The user of the worked examples. -/
def alice : UserInfo := { Oaid := "u1", EmployeeName := "Alice" }

/-- A session as the ticket path stores it for `alice`. -/
def aliceSession : Session := storeIdentity emptySession alice

/-- An SSO answer without a subject identifier. -/
def blankUser : UserInfo := { Oaid := "", EmployeeName := "" }

/-- The session the ticket path stores for `blankUser`. -/
def blankSession : Session := storeIdentity emptySession blankUser

/-! ## The regular expression of `staticFileRegex` -/

/-- The part of the RE2 syntax that the pattern of `staticFileRegex` uses. -/
inductive Regex where
  /-- The empty pattern. -/
  | empty
  /-- A literal character, also an escaped one such as `\.`. -/
  | lit (c : Char)
  /-- Concatenation. -/
  | cat (a b : Regex)
  /-- Alternation `a|b`. -/
  | alt (a b : Regex)
  /-- The pattern `$` without the multi-line flag: the end of the text. -/
  | endText
  deriving DecidableEq, Repr

/-- All ways the pattern matches at the start of `s`: the rests of `s`, one
for each match. -/
def Regex.run : Regex → List Char → List (List Char)
  | .empty, s => [s]
  | .lit c, s =>
    match s with
    | d :: t => if d = c then [t] else []
    | [] => []
  | .cat a b, s => (a.run s).flatMap fun t => b.run t
  | .alt a b, s => a.run s ++ b.run s
  | .endText, s => if s = [] then [[]] else []

/-- The pattern matches somewhere in the text: at its start or at the start
of a later position. -/
def Regex.matchList (re : Regex) : List Char → Bool
  | [] => !(re.run []).isEmpty
  | c :: t => !(re.run (c :: t)).isEmpty || re.matchList t

/-- Go `(*Regexp).MatchString(s)`: whether the text contains any match of
the pattern. -/
def Regex.MatchString (re : Regex) (s : String) : Bool :=
  re.matchList s.data

/-- A word, as the concatenation of its literals. -/
def Regex.word : List Char → Regex
  | [] => .empty
  | c :: t => .cat (.lit c) (Regex.word t)

/-- The alternation `a|b1|...|bn`. -/
def Regex.oneOf : Regex → List Regex → Regex
  | a, [] => a
  | a, b :: rest => .alt a (Regex.oneOf b rest)

/-- The pattern `\.(ico|jpg|jpeg|png|gif|svg|js|css|swf|eot|ttf|otf|woff|woff2)$`
of `staticFileRegex`. -/
def staticFileRegex : Regex :=
  .cat (.lit '.')
    (.cat
      (Regex.oneOf (Regex.word "ico".data)
        [Regex.word "jpg".data, Regex.word "jpeg".data, Regex.word "png".data,
         Regex.word "gif".data, Regex.word "svg".data, Regex.word "js".data,
         Regex.word "css".data, Regex.word "swf".data, Regex.word "eot".data,
         Regex.word "ttf".data, Regex.word "otf".data, Regex.word "woff".data,
         Regex.word "woff2".data])
      .endText)

/-! ## More predicates used in the statements -/

/-- Go `Header.Values(key)`: all values under the key. -/
def Header.Values (h : Header) (key : String) : List String :=
  match h.find? fun e => e.1 == key with
  | some (_, vs) => vs
  | none => []

/-- The call is one of the five operations of the SSO provider. -/
def Call.isSSO : Call → Bool
  | .IsLoginPath _ => true
  | .ExtractTicket _ => true
  | .BuildServiceURL _ => true
  | .ValidateTicket _ _ => true
  | .GetLoginURL _ => true
  | _ => false

/-- The session invariant of the specification: the key `"user"` is set
exactly when the session is authenticated. -/
def Session.UserIffAuthenticated (s : Session) : Prop :=
  (s.Values.get UserKey).isSome = true ↔ s.Authenticated

instance (s : Session) : Decidable s.UserIffAuthenticated := by
  unfold Session.UserIffAuthenticated; infer_instance

/-- An SSO answer with a subject identifier and no display name. -/
def bob : UserInfo := { Oaid := "u2", EmployeeName := "" }

/-- The session the ticket path stores for `bob`. -/
def bobSession : Session := storeIdentity emptySession bob

/-- A browser request for `/app/foo?page=2` with a forged `X-User` header. -/
def browserRequest : Request :=
  exRequest "/app/foo" "page=2"
    [("Cookie", ["cas_gateway_session=abc"]), ("Accept", ["text/html", "*/*"]),
     ("X-User", ["admin"])]

/-- The request that `next` receives for `browserRequest` and `aliceSession`. -/
def forwardedRequest : Request :=
  exRequest "/foo" "page=2"
    [("X-Employee-Name", ["Alice"]), ("X-User", ["u1"]),
     ("Cookie", ["cas_gateway_session=abc"]), ("Accept", ["text/html", "*/*"])]

/-- The provider `exProvider`, with another login page. -/
def otherLoginProvider (userInfo : UserInfo) : Provider :=
  { exProvider userInfo with
    GetLoginURL := fun serviceURL => "https://other.example/login?service=" ++ serviceURL }

/-- The provider `exProvider`, accepting every ticket. -/
def lenientProvider (userInfo : UserInfo) : Provider :=
  { exProvider userInfo with ValidateTicket := fun _ _ => .ok userInfo }

/-- A provider that answers as `exProvider` at the service URL
`http://gw.example/app` and differently at every other service URL: there it
accepts every ticket and names another login page. -/
def elsewhereProvider (userInfo : UserInfo) : Provider :=
  { exProvider userInfo with
    ValidateTicket := fun ticket serviceURL =>
      if serviceURL = "http://gw.example/app" then
        (exProvider userInfo).ValidateTicket ticket serviceURL
      else .ok userInfo
    GetLoginURL := fun serviceURL =>
      if serviceURL = "http://gw.example/app" then
        (exProvider userInfo).GetLoginURL serviceURL
      else "https://other.example/login?service=" ++ serviceURL }

/-! ## Basic lemmas -/

theorem assertBool_ok_and_val (o : Option Value) :
    ((assertBool o).2 && (assertBool o).1) = true ↔ o = some (Value.bool true) := by
  rcases o with _ | v
  · simp [assertBool]
  · cases v with
    | str s => simp [assertBool]
    | bool b => cases b <;> simp [assertBool]
    | int n => simp [assertBool]

theorem Handler_exempt (am : AuthMiddleware) (r : Request) (h : Exempt r) :
    Handler am r = { response := .next r, saved := none, calls := [] } := by
  unfold Exempt at h
  simp [Handler, h]

theorem Handler_no_route (am : AuthMiddleware) (r : Request) (hex : ¬ Exempt r)
    (hroute : am.proxyManager.GetRoute = none) :
    Handler am r = { response := .notFound, saved := none, calls := [.GetRoute] } := by
  unfold Exempt at hex
  simp [Handler, hex, hroute]

theorem Handler_static (am : AuthMiddleware) (r : Request) (route : RouteConfig)
    (hex : ¬ Exempt r) (hroute : am.proxyManager.GetRoute = some route)
    (hst : isStaticFile r.URL.Path = true) :
    Handler am r = { response := .proxy r, saved := none, calls := [.GetRoute, .GetProxy] } := by
  unfold Exempt at hex
  simp [Handler, hex, hroute, hst]

theorem Handler_authenticated (am : AuthMiddleware) (r : Request) (route : RouteConfig)
    (hex : ¬ Exempt r) (hroute : am.proxyManager.GetRoute = some route)
    (hst : isStaticFile r.URL.Path = false) (hauth : (am.store.Get r).Authenticated) :
    Handler am r =
      { response := .next
          { r with
            Header := setIdentityHeaders (am.store.Get r) (GetUser am r) r.Header
            URL := { r.URL with Path := stripRoutePrefix route.Path r.URL.Path } }
        saved := none
        calls := [.GetRoute, .StoreGet, .StoreGet] } := by
  unfold Exempt at hex
  unfold Session.Authenticated at hauth
  simp [Handler, hex, hroute, hst, hauth, assertBool]

theorem Handler_unauthenticated_cases (am : AuthMiddleware) (r : Request) (route : RouteConfig)
    (hex : ¬ Exempt r) (hroute : am.proxyManager.GetRoute = some route)
    (hst : isStaticFile r.URL.Path = false) (hna : ¬ (am.store.Get r).Authenticated) :
    (Handler am r).response =
        .redirect (am.authProvider.GetLoginURL
          (am.authProvider.BuildServiceURL r (servicePathOf route))) StatusFound ∨
      (∃ ticket userInfo session1,
        am.authProvider.IsLoginPath r.URL.String = true ∧
        am.authProvider.ExtractTicket r.URL.String = .ok ticket ∧
        am.authProvider.ValidateTicket ticket
          (am.authProvider.BuildServiceURL r (servicePathOf route)) = .ok userInfo ∧
        (Handler am r).saved = some session1 ∧
        am.store.Save r session1 = true ∧
        (Handler am r).response =
          .redirect (if servicePathOf route = "/" then "" else servicePathOf route)
            StatusFound) := by
  unfold Exempt at hex
  have hb : ((assertBool ((am.store.Get r).Values.get IsAuthenticatedKey)).2 &&
      (assertBool ((am.store.Get r).Values.get IsAuthenticatedKey)).1) = false := by
    rw [Bool.eq_false_iff]
    intro h
    exact hna ((assertBool_ok_and_val _).1 h)
  unfold Handler
  simp only [hex, if_false, hroute, hst, hb, Bool.false_eq_true]
  by_cases hl : am.authProvider.IsLoginPath r.URL.String = true
  · simp only [hl, if_true]
    cases ht : am.authProvider.ExtractTicket r.URL.String with
    | error e => left; simp [redirectToLogin, servicePathOf]
    | ok ticket =>
      simp only []
      cases hv : am.authProvider.ValidateTicket ticket
          (am.authProvider.BuildServiceURL r (if route.Path = "" then "/" else route.Path)) with
      | error e => left; simp [redirectToLogin, servicePathOf]
      | ok userInfo =>
        simp only []
        by_cases hs : am.store.Save r (storeIdentity (am.store.Get r) userInfo) = true
        · right
          refine ⟨ticket, userInfo, storeIdentity (am.store.Get r) userInfo, trivial, rfl, hv, ?_, hs, ?_⟩
          · simp [hs]
          · simp [hs, servicePathOf]
        · left; simp [hs, redirectToLogin, servicePathOf]
  · left
    simp [hl, redirectToLogin, servicePathOf]

theorem Handler_validated (am : AuthMiddleware) (r : Request) (route : RouteConfig)
    (ticket : String) (userInfo : UserInfo)
    (hex : ¬ Exempt r) (hroute : am.proxyManager.GetRoute = some route)
    (hst : isStaticFile r.URL.Path = false) (hna : ¬ (am.store.Get r).Authenticated)
    (hl : am.authProvider.IsLoginPath r.URL.String = true)
    (ht : am.authProvider.ExtractTicket r.URL.String = .ok ticket)
    (hv : am.authProvider.ValidateTicket ticket
      (am.authProvider.BuildServiceURL r (servicePathOf route)) = .ok userInfo) :
    (Handler am r).saved = some (storeIdentity (am.store.Get r) userInfo) ∧
    (am.store.Save r (storeIdentity (am.store.Get r) userInfo) = true →
      (Handler am r).response =
        .redirect (if servicePathOf route = "/" then "" else servicePathOf route)
          StatusFound) := by
  unfold Exempt at hex
  have hb : ((assertBool ((am.store.Get r).Values.get IsAuthenticatedKey)).2 &&
      (assertBool ((am.store.Get r).Values.get IsAuthenticatedKey)).1) = false := by
    rw [Bool.eq_false_iff]
    intro h
    exact hna ((assertBool_ok_and_val _).1 h)
  unfold servicePathOf at hv
  unfold Handler
  simp only [hex, if_false, hroute, hst, hb, Bool.false_eq_true, hl, if_true, ht, hv]
  by_cases hs : am.store.Save r (storeIdentity (am.store.Get r) userInfo) = true
  · simp [hs, servicePathOf]
  · simp [hs, redirectToLogin]

theorem Handler_saved (am : AuthMiddleware) (r : Request) (s : Session)
    (h : (Handler am r).saved = some s) :
    ∃ route ticket userInfo,
      am.proxyManager.GetRoute = some route ∧
      am.authProvider.IsLoginPath r.URL.String = true ∧
      am.authProvider.ExtractTicket r.URL.String = .ok ticket ∧
      am.authProvider.ValidateTicket ticket
        (am.authProvider.BuildServiceURL r (servicePathOf route)) = .ok userInfo ∧
      s = storeIdentity (am.store.Get r) userInfo := by
  unfold Handler at h
  split at h
  · simp at h
  · split at h
    · simp at h
    · rename_i route hroute
      split at h
      · simp at h
      · simp only [] at h
        split at h
        · simp at h
        · split at h
          · rename_i hl
            split at h
            · rename_i ticket ht
              split at h
              · rename_i userInfo hv
                refine ⟨route, ticket, userInfo, hroute, hl, ht, hv, ?_⟩
                split at h
                · simpa using h.symm
                · simpa [redirectToLogin] using h.symm
              · simp [redirectToLogin] at h
            · simp [redirectToLogin] at h
          · simp [redirectToLogin] at h

/-! ## Lemmas on maps, headers and strings -/

theorem find?_filter_ne_key {α β : Type} [DecidableEq α] (l : List (α × β)) (k k1 : α)
    (h : k ≠ k1) :
    (l.filter fun e => e.1 != k).find? (fun e => e.1 == k1) = l.find? (fun e => e.1 == k1) := by
  induction l with
  | nil => rfl
  | cons e l ih =>
    obtain ⟨a, b⟩ := e
    by_cases he : a = k
    · subst he
      have hk : (a == k1) = false := by simpa using h
      simp [List.filter_cons, List.find?_cons, hk, ih]
    · have he1 : (a != k) = true := by simpa using he
      rw [List.filter_cons]
      simp only [he1, if_true, List.find?_cons]
      rw [ih]

theorem ValueMap.get_set_self (m : ValueMap) (k v : Value) : (m.set k v).get k = some v := by
  simp [ValueMap.get, ValueMap.set]

theorem ValueMap.get_set_of_ne (m : ValueMap) (k k1 v : Value) (h : k ≠ k1) :
    (m.set k v).get k1 = m.get k1 := by
  simp only [ValueMap.get, ValueMap.set]
  rw [List.find?_cons_of_neg _ (by simpa using h)]
  rw [find?_filter_ne_key m k k1 h]

theorem Header.Get_Set_self (h : Header) (k v : String) : (h.Set k v).Get k = v := by
  simp [Header.Get, Header.Set]

theorem Header.Get_Set_of_ne (h : Header) (k k1 v : String) (hne : k ≠ k1) :
    (h.Set k v).Get k1 = h.Get k1 := by
  have hf : ((h.Set k v).find? fun e => e.1 == k1) = h.find? fun e => e.1 == k1 := by
    simp only [Header.Set]
    rw [List.find?_cons_of_neg _ (by simpa using hne)]
    exact find?_filter_ne_key h k k1 hne
  simp only [Header.Get, hf]

theorem HasPrefix_iff (s pre : String) : HasPrefix s pre = true ↔ ∃ t, s = pre ++ t := by
  constructor
  · intro h
    simp only [HasPrefix, Bool.and_eq_true, decide_eq_true_eq, beq_iff_eq] at h
    refine ⟨String.mk (s.data.drop pre.data.length), ?_⟩
    apply String.ext
    rw [String.data_append]
    conv_lhs => rw [← List.take_append_drop pre.data.length s.data]
    rw [h.2]
  · rintro ⟨t, rfl⟩
    simp [HasPrefix, String.data_append]

theorem TrimPrefix_append (pre t : String) : TrimPrefix (pre ++ t) pre = t := by
  have h : HasPrefix (pre ++ t) pre = true := (HasPrefix_iff _ _).2 ⟨t, rfl⟩
  simp only [TrimPrefix, h, if_true]
  apply String.ext
  simp [String.data_append]

/-! ## C1: only an authenticated session is forwarded -/

/-- C1: for every request whose path is neither `/health` nor `/logout` and
is not a static asset, whatever the route, the session and the collaborators
answer, `Handler` forwards the request (to `next` or to the proxy) only if
the loaded session holds the boolean `true` under `"authenticated"`; when it
does not, the response is a not-found or a 302 redirect and nothing is
forwarded. -/
theorem C1_forward_requires_authenticated_session (am : AuthMiddleware) (r : Request)
    (hex : ¬ Exempt r) (hst : isStaticFile r.URL.Path = false) :
    ((Handler am r).response.isForward = true → (am.store.Get r).Authenticated) ∧
    (¬ (am.store.Get r).Authenticated →
      ((Handler am r).response = .notFound ∨ (Handler am r).response.isRedirect302 = true) ∧
        (Handler am r).response.isForward = false) := by
  have key : ¬ (am.store.Get r).Authenticated →
      ((Handler am r).response = .notFound ∨ (Handler am r).response.isRedirect302 = true) ∧
        (Handler am r).response.isForward = false := by
    intro hna
    cases hroute : am.proxyManager.GetRoute with
    | none =>
      rw [Handler_no_route am r hex hroute]
      exact ⟨Or.inl rfl, rfl⟩
    | some route =>
      rcases Handler_unauthenticated_cases am r route hex hroute hst hna with h | h
      · rw [h]; exact ⟨Or.inr rfl, rfl⟩
      · obtain ⟨_, _, _, _, _, _, _, _, h⟩ := h
        rw [h]; exact ⟨Or.inr rfl, rfl⟩
  refine ⟨?_, key⟩
  intro hf
  by_contra hna
  have := (key hna).2
  rw [hf] at this
  exact Bool.noConfusion this

/-- C1 at a concrete input: a first-time visitor asking for `/app/foo`. -/
theorem C1_forward_requires_authenticated_session_witness :
    (¬ Exempt (exRequest "/app/foo" "" []) ∧
      isStaticFile (exRequest "/app/foo" "" []).URL.Path = false) ∧
    (((Handler (exMiddleware (some exRoute) emptySession true alice)
        (exRequest "/app/foo" "" [])).response.isForward = true →
      ((exMiddleware (some exRoute) emptySession true alice).store.Get
        (exRequest "/app/foo" "" [])).Authenticated) ∧
    (¬ ((exMiddleware (some exRoute) emptySession true alice).store.Get
        (exRequest "/app/foo" "" [])).Authenticated →
      ((Handler (exMiddleware (some exRoute) emptySession true alice)
          (exRequest "/app/foo" "" [])).response = .notFound ∨
        (Handler (exMiddleware (some exRoute) emptySession true alice)
          (exRequest "/app/foo" "" [])).response.isRedirect302 = true) ∧
      (Handler (exMiddleware (some exRoute) emptySession true alice)
        (exRequest "/app/foo" "" [])).response.isForward = false)) :=
  ⟨⟨by decide, by decide⟩,
    C1_forward_requires_authenticated_session _ _ (by decide) (by decide)⟩

/-! ## C2: the ticket path is the only way to an authenticated session -/

theorem Logout_not_authenticated (am : AuthMiddleware) (r : Request) :
    ¬ (Logout am r).Authenticated := by
  simp [Logout, Session.Authenticated, ValueMap.get]

/-- C2: let `s` be a session that `Handler` or `Logout` hands to
`session.Save` for a request `r`.  If `s` has `authenticated = true` while
the session loaded from `r` did not, then `s` was saved by `Handler` (not by
`Logout`), the request was a login callback (`IsLoginPath` true), its
`ExtractTicket` succeeded and the `ValidateTicket` call on that ticket
returned without error. -/
theorem C2_authenticated_only_through_ticket (am : AuthMiddleware) (r : Request) (s : Session)
    (hs : (Handler am r).saved = some s ∨ s = Logout am r)
    (hauth : s.Authenticated) (_hna : ¬ (am.store.Get r).Authenticated) :
    (Handler am r).saved = some s ∧
    am.authProvider.IsLoginPath r.URL.String = true ∧
    ∃ route ticket userInfo,
      am.proxyManager.GetRoute = some route ∧
      am.authProvider.ExtractTicket r.URL.String = .ok ticket ∧
      am.authProvider.ValidateTicket ticket
        (am.authProvider.BuildServiceURL r (servicePathOf route)) = .ok userInfo := by
  rcases hs with hs | hs
  · obtain ⟨route, ticket, userInfo, hroute, hl, ht, hv, _⟩ := Handler_saved am r s hs
    exact ⟨hs, hl, route, ticket, userInfo, hroute, ht, hv⟩
  · subst hs
    exact absurd hauth (Logout_not_authenticated am r)

/-- C2 at a concrete input: a first-time visitor returning from the SSO
server with the valid ticket. -/
theorem C2_authenticated_only_through_ticket_witness :
    (((Handler (exMiddleware (some exRoute) emptySession true alice)
          (exRequest "/app" "ticket=ST-1" [])).saved = some aliceSession ∨
        aliceSession = Logout (exMiddleware (some exRoute) emptySession true alice)
          (exRequest "/app" "ticket=ST-1" [])) ∧
      aliceSession.Authenticated ∧
      ¬ ((exMiddleware (some exRoute) emptySession true alice).store.Get
          (exRequest "/app" "ticket=ST-1" [])).Authenticated) ∧
    ((Handler (exMiddleware (some exRoute) emptySession true alice)
        (exRequest "/app" "ticket=ST-1" [])).saved = some aliceSession ∧
      (exMiddleware (some exRoute) emptySession true alice).authProvider.IsLoginPath
        (exRequest "/app" "ticket=ST-1" []).URL.String = true ∧
      ∃ route ticket userInfo,
        (exMiddleware (some exRoute) emptySession true alice).proxyManager.GetRoute
          = some route ∧
        (exMiddleware (some exRoute) emptySession true alice).authProvider.ExtractTicket
          (exRequest "/app" "ticket=ST-1" []).URL.String = .ok ticket ∧
        (exMiddleware (some exRoute) emptySession true alice).authProvider.ValidateTicket ticket
          ((exMiddleware (some exRoute) emptySession true alice).authProvider.BuildServiceURL
            (exRequest "/app" "ticket=ST-1" []) (servicePathOf route)) = .ok userInfo) :=
  ⟨⟨Or.inl (by decide), by decide, by decide⟩,
    C2_authenticated_only_through_ticket _ _ _ (Or.inl (by decide)) (by decide) (by decide)⟩

/-! ## C3: the ticket success transition -/

theorem storeIdentity_authenticated (session : Session) (userInfo : UserInfo) :
    (storeIdentity session userInfo).Values.get IsAuthenticatedKey = some (.bool true) := by
  simp only [storeIdentity]
  exact ValueMap.get_set_self _ _ _

theorem storeIdentity_user (session : Session) (userInfo : UserInfo) :
    (storeIdentity session userInfo).Values.get UserKey = some (.str userInfo.Oaid) := by
  simp only [storeIdentity]
  rw [ValueMap.get_set_of_ne _ _ _ _ (by decide)]
  split
  · rw [ValueMap.get_set_of_ne _ _ _ _ (by decide)]
    exact ValueMap.get_set_self _ _ _
  · exact ValueMap.get_set_self _ _ _

theorem storeIdentity_employeeName (session : Session) (userInfo : UserInfo)
    (h : userInfo.EmployeeName ≠ "") :
    (storeIdentity session userInfo).Values.get (.str "employeeName") =
      some (.str userInfo.EmployeeName) := by
  simp only [storeIdentity, h, ne_eq, not_false_eq_true, if_true]
  rw [ValueMap.get_set_of_ne _ _ _ _ (by decide)]
  exact ValueMap.get_set_self _ _ _

/-- C3: with a configured route, for a request that is neither exempt nor
static, whose session is not authenticated, whose URL is a login callback,
whose ticket is extracted, whose `ValidateTicket` returns
`UserInfo{Oaid: u, EmployeeName: n}` and whose session save succeeds, the
saved session has `authenticated = true`, `user = u` and, when `n` is not
empty, `employeeName = n`, and the response is a 302 redirect. -/
theorem C3_ticket_success_transition (am : AuthMiddleware) (r : Request) (route : RouteConfig)
    (ticket u n : String)
    (hroute : am.proxyManager.GetRoute = some route)
    (hex : ¬ Exempt r) (hst : isStaticFile r.URL.Path = false)
    (hna : ¬ (am.store.Get r).Authenticated)
    (hl : am.authProvider.IsLoginPath r.URL.String = true)
    (ht : am.authProvider.ExtractTicket r.URL.String = .ok ticket)
    (hv : am.authProvider.ValidateTicket ticket
      (am.authProvider.BuildServiceURL r (servicePathOf route)) =
        .ok { Oaid := u, EmployeeName := n })
    (hsave : ∀ s, (Handler am r).saved = some s → am.store.Save r s = true) :
    ∃ s, (Handler am r).saved = some s ∧
      s.Values.get IsAuthenticatedKey = some (.bool true) ∧
      s.Values.get UserKey = some (.str u) ∧
      (n ≠ "" → s.Values.get (.str "employeeName") = some (.str n)) ∧
      (Handler am r).response.isRedirect302 = true ∧
      (Handler am r).response.isForward = false := by
  obtain ⟨hsaved, hresp⟩ := Handler_validated am r route ticket _ hex hroute hst hna hl ht hv
  refine ⟨_, hsaved, storeIdentity_authenticated _ _, storeIdentity_user _ _,
    fun hn => storeIdentity_employeeName _ _ hn, ?_, ?_⟩
  · rw [hresp (hsave _ hsaved)]; rfl
  · rw [hresp (hsave _ hsaved)]; rfl

/-- C3 at the input of the specification: route path `/app`, `u = "u1"`,
`n = "Alice"`; the redirect goes to `/app`. -/
theorem C3_ticket_success_transition_witness :
    (Handler (exMiddleware (some exRoute) emptySession true alice)
        (exRequest "/app" "ticket=ST-1" [])).response = .redirect "/app" 302 ∧
    ∃ s, (Handler (exMiddleware (some exRoute) emptySession true alice)
        (exRequest "/app" "ticket=ST-1" [])).saved = some s ∧
      s.Values.get IsAuthenticatedKey = some (.bool true) ∧
      s.Values.get UserKey = some (.str "u1") ∧
      ("Alice" ≠ "" → s.Values.get (.str "employeeName") = some (.str "Alice")) ∧
      (Handler (exMiddleware (some exRoute) emptySession true alice)
        (exRequest "/app" "ticket=ST-1" [])).response.isRedirect302 = true ∧
      (Handler (exMiddleware (some exRoute) emptySession true alice)
        (exRequest "/app" "ticket=ST-1" [])).response.isForward = false :=
  ⟨by decide,
    C3_ticket_success_transition (exMiddleware (some exRoute) emptySession true alice)
      (exRequest "/app" "ticket=ST-1" []) exRoute "ST-1" "u1" "Alice"
      (by decide) (by decide) (by decide) (by decide) (by decide) rfl rfl
      (fun _ _ => rfl)⟩

/-! ## C4: the unauthenticated redirect and the ticket-failure fallback -/

/-- C4: with a configured route, for a request that is neither exempt nor
static and whose session is not authenticated, unless the request is a login
callback for which `ExtractTicket`, `ValidateTicket` and the session save all
succeed, the response is a 302 redirect to
`GetLoginURL(BuildServiceURL(r, p))`, `p` being the route path, or `"/"` when
the route path is empty.  The response does not depend on which of the three
steps failed, nor on the error. -/
theorem C4_unauthenticated_redirect (am : AuthMiddleware) (r : Request) (route : RouteConfig)
    (hroute : am.proxyManager.GetRoute = some route)
    (hex : ¬ Exempt r) (hst : isStaticFile r.URL.Path = false)
    (hna : ¬ (am.store.Get r).Authenticated)
    (hfail : ¬ (am.authProvider.IsLoginPath r.URL.String = true ∧
      ∃ ticket userInfo,
        am.authProvider.ExtractTicket r.URL.String = .ok ticket ∧
        am.authProvider.ValidateTicket ticket
          (am.authProvider.BuildServiceURL r (if route.Path = "" then "/" else route.Path))
            = .ok userInfo ∧
        ∀ s, (Handler am r).saved = some s → am.store.Save r s = true)) :
    (Handler am r).response =
      .redirect
        (am.authProvider.GetLoginURL
          (am.authProvider.BuildServiceURL r (if route.Path = "" then "/" else route.Path)))
        302 := by
  rcases Handler_unauthenticated_cases am r route hex hroute hst hna with h | h
  · exact h
  · obtain ⟨ticket, userInfo, session1, hl, ht, hv, hsaved, hsave, _⟩ := h
    refine absurd ⟨hl, ticket, userInfo, ht, hv, ?_⟩ hfail
    intro s hs
    rw [hsaved] at hs
    cases hs
    exact hsave

/-- C4 at a concrete input: a callback with the valid ticket whose session
save fails is answered like a first visit, by the redirect to the login page
for the service URL built from `/app`. -/
theorem C4_unauthenticated_redirect_witness :
    (Handler (exMiddleware (some exRoute) emptySession false alice)
        (exRequest "/app" "ticket=ST-1" [])).response =
      .redirect
        ((exMiddleware (some exRoute) emptySession false alice).authProvider.GetLoginURL
          ((exMiddleware (some exRoute) emptySession false alice).authProvider.BuildServiceURL
            (exRequest "/app" "ticket=ST-1" [])
            (if exRoute.Path = "" then "/" else exRoute.Path)))
        302 ∧
    (Handler (exMiddleware (some exRoute) emptySession false alice)
        (exRequest "/app" "ticket=ST-1" [])).response =
      .redirect "https://sso.example/login?service=http://gw.example/app" 302 ∧
    (Handler (exMiddleware (some exRoute) emptySession false alice)
        (exRequest "/app" "ticket=ST-1" [])).response =
      (Handler (exMiddleware (some exRoute) emptySession true alice)
        (exRequest "/app/foo" "" [])).response :=
  ⟨C4_unauthenticated_redirect (exMiddleware (some exRoute) emptySession false alice)
      (exRequest "/app" "ticket=ST-1" []) exRoute (by decide) (by decide) (by decide)
      (by decide)
      (fun h => by
        obtain ⟨_, _, _, _, _, hs⟩ := h
        exact Bool.noConfusion (hs (storeIdentity emptySession alice) (by decide))),
    by decide, by decide⟩

/-! ## C5: the identity header on the authenticated path -/

theorem GetUser_of_str (am : AuthMiddleware) (r : Request) (u : String)
    (hu : (am.store.Get r).Values.get UserKey = some (.str u)) : GetUser am r = u := by
  simp [GetUser, hu, assertString]

theorem setIdentityHeaders_user (session : Session) (user : String) (h : Header)
    (hne : user ≠ "") : (setIdentityHeaders session user h).Get "X-User" = user := by
  simp only [setIdentityHeaders, hne, ne_eq, not_false_eq_true, if_true]
  split
  · rw [Header.Get_Set_of_ne _ _ _ _ (by decide)]
    exact Header.Get_Set_self _ _ _
  · exact Header.Get_Set_self _ _ _

/-- The branch that overwrites: with a configured route, for a request that
is neither exempt nor static and whose loaded session has
`authenticated = true` and a non-empty string `u` under the key `"user"`,
the request handed to `next` carries the header `X-User` equal to `u`,
whatever headers the client sent. -/
theorem identity_header_of_nonempty_user (am : AuthMiddleware) (r : Request) (route : RouteConfig)
    (u : String)
    (hroute : am.proxyManager.GetRoute = some route)
    (hex : ¬ Exempt r) (hst : isStaticFile r.URL.Path = false)
    (hauth : (am.store.Get r).Authenticated)
    (hu : (am.store.Get r).Values.get UserKey = some (.str u)) (hne : u ≠ "") :
    ∃ r1, (Handler am r).response = .next r1 ∧ r1.Header.Get "X-User" = u := by
  rw [Handler_authenticated am r route hex hroute hst hauth]
  refine ⟨_, rfl, ?_⟩
  rw [GetUser_of_str am r u hu]
  exact setIdentityHeaders_user _ _ _ hne

/-- The input of the specification: user `u1`, route prefix `/app`; the
request `/app/foo`, sent with a header `X-User: admin`, is forwarded as
`/foo` with `X-User: u1`. -/
theorem identity_header_of_nonempty_user_example :
    (Handler (exMiddleware (some exRoute) aliceSession true alice)
        (exRequest "/app/foo" "" [("X-User", ["admin"])])).response =
      .next (exRequest "/foo" ""
        [("X-Employee-Name", ["Alice"]), ("X-User", ["u1"])]) ∧
    ∃ r1, (Handler (exMiddleware (some exRoute) aliceSession true alice)
        (exRequest "/app/foo" "" [("X-User", ["admin"])])).response = .next r1 ∧
      r1.Header.Get "X-User" = "u1" :=
  ⟨by decide,
    identity_header_of_nonempty_user (exMiddleware (some exRoute) aliceSession true alice)
      (exRequest "/app/foo" "" [("X-User", ["admin"])]) exRoute "u1"
      (by decide) (by decide) (by decide) (by decide) (by decide) (by decide)⟩

/-- C5 fails on the code: the SSO server answers the valid ticket with an
empty `Oaid`, so `Handler` saves `blankSession`, which has
`authenticated = true` and `user = ""`.  A later request carrying that
session and the client header `X-User: admin` is handed to `next` with
`X-User: admin`, not with the session's user identifier: `Header.Set` is
skipped for the empty user and the client's header is not removed. -/
theorem C5_client_x_user_reaches_backend :
    (Handler (exMiddleware (some exRoute) emptySession true blankUser)
        (exRequest "/app" "ticket=ST-1" [])).saved = some blankSession ∧
    (exMiddleware (some exRoute) blankSession true blankUser).proxyManager.GetRoute
      = some exRoute ∧
    ¬ Exempt (exRequest "/app/foo" "" [("X-User", ["admin"])]) ∧
    isStaticFile (exRequest "/app/foo" "" [("X-User", ["admin"])]).URL.Path = false ∧
    ((exMiddleware (some exRoute) blankSession true blankUser).store.Get
      (exRequest "/app/foo" "" [("X-User", ["admin"])])).Authenticated ∧
    ((exMiddleware (some exRoute) blankSession true blankUser).store.Get
      (exRequest "/app/foo" "" [("X-User", ["admin"])])).Values.get UserKey
        = some (.str "") ∧
    (Handler (exMiddleware (some exRoute) blankSession true blankUser)
        (exRequest "/app/foo" "" [("X-User", ["admin"])])).response =
      .next (exRequest "/foo" "" [("X-User", ["admin"])]) ∧
    ¬ ∃ r1, (Handler (exMiddleware (some exRoute) blankSession true blankUser)
        (exRequest "/app/foo" "" [("X-User", ["admin"])])).response = .next r1 ∧
      r1.Header.Get "X-User" = "" := by
  refine ⟨by decide, by decide, by decide, by decide, by decide, by decide, by decide, ?_⟩
  rintro ⟨r1, h1, h2⟩
  have h : (Handler (exMiddleware (some exRoute) blankSession true blankUser)
        (exRequest "/app/foo" "" [("X-User", ["admin"])])).response =
      .next (exRequest "/foo" "" [("X-User", ["admin"])]) := by decide
  rw [h] at h1
  cases h1
  revert h2
  decide

/-! ## C6: path-prefix stripping -/

theorem stripRoutePrefix_append (p t : String) (h1 : p ≠ "") (h2 : p ≠ "/") :
    stripRoutePrefix p (p ++ t) = if t = "" then "/" else t := by
  have h : HasPrefix (p ++ t) p = true := (HasPrefix_iff _ _).2 ⟨t, rfl⟩
  simp only [stripRoutePrefix, h1, h2, h, ne_eq, not_false_eq_true, and_self, if_true,
    TrimPrefix_append]

theorem stripRoutePrefix_other (p s : String)
    (h : ¬ (p ≠ "" ∧ p ≠ "/" ∧ ∃ t, s = p ++ t)) : stripRoutePrefix p s = s := by
  rw [← HasPrefix_iff] at h
  simp only [stripRoutePrefix, h, if_false]

/-- C6: on the authenticated path (configured route with prefix `p`, request
with path `s` that is neither exempt nor static, authenticated session) the
request is handed to `next` with a path that is: `s` without its leading `p`
when `p` is not empty, `p` is not `"/"` and `s` starts with `p`, with `"/"`
in place of an empty remainder; and `s` unchanged otherwise.  In particular
the request path exactly `p` is forwarded as `"/"`. -/
theorem C6_prefix_stripping (am : AuthMiddleware) (r : Request) (route : RouteConfig)
    (hroute : am.proxyManager.GetRoute = some route)
    (hex : ¬ Exempt r) (hst : isStaticFile r.URL.Path = false)
    (hauth : (am.store.Get r).Authenticated) :
    ∃ r1, (Handler am r).response = .next r1 ∧
      (∀ t, route.Path ≠ "" → route.Path ≠ "/" → r.URL.Path = route.Path ++ t →
        r1.URL.Path = if t = "" then "/" else t) ∧
      (¬ (route.Path ≠ "" ∧ route.Path ≠ "/" ∧ ∃ t, r.URL.Path = route.Path ++ t) →
        r1.URL.Path = r.URL.Path) ∧
      (route.Path ≠ "" → route.Path ≠ "/" → r.URL.Path = route.Path → r1.URL.Path = "/") := by
  rw [Handler_authenticated am r route hex hroute hst hauth]
  refine ⟨_, rfl, ?_, ?_, ?_⟩
  · intro t h1 h2 hs
    show stripRoutePrefix route.Path r.URL.Path = _
    rw [hs]
    exact stripRoutePrefix_append _ _ h1 h2
  · intro h
    exact stripRoutePrefix_other _ _ h
  · intro h1 h2 hs
    show stripRoutePrefix route.Path r.URL.Path = _
    have := stripRoutePrefix_append route.Path "" h1 h2
    rw [String.append_empty] at this
    rw [hs, this]
    rfl

/-- C6 at the edge case of the specification: route prefix `/app`, request
path exactly `/app`, forwarded as `/`. -/
theorem C6_prefix_stripping_witness :
    (Handler (exMiddleware (some exRoute) aliceSession true alice)
        (exRequest "/app" "" [])).response =
      .next (exRequest "/" "" [("X-Employee-Name", ["Alice"]), ("X-User", ["u1"])]) ∧
    ∃ r1, (Handler (exMiddleware (some exRoute) aliceSession true alice)
        (exRequest "/app" "" [])).response = .next r1 ∧
      (∀ t, exRoute.Path ≠ "" → exRoute.Path ≠ "/" →
        (exRequest "/app" "" []).URL.Path = exRoute.Path ++ t →
        r1.URL.Path = if t = "" then "/" else t) ∧
      (¬ (exRoute.Path ≠ "" ∧ exRoute.Path ≠ "/" ∧
          ∃ t, (exRequest "/app" "" []).URL.Path = exRoute.Path ++ t) →
        r1.URL.Path = (exRequest "/app" "" []).URL.Path) ∧
      (exRoute.Path ≠ "" → exRoute.Path ≠ "/" →
        (exRequest "/app" "" []).URL.Path = exRoute.Path → r1.URL.Path = "/") :=
  ⟨by decide,
    C6_prefix_stripping (exMiddleware (some exRoute) aliceSession true alice)
      (exRequest "/app" "" []) exRoute (by decide) (by decide) (by decide) (by decide)⟩

/-! ## C7: static assets -/

theorem not_exempt_of_static (r : Request) (hst : isStaticFile r.URL.Path = true) :
    ¬ Exempt r := by
  intro h
  rcases h with h | h <;> rw [h] at hst <;> revert hst <;> decide

/-- C7, as the code has it: for every request whose path ends in one of the
listed static-asset extensions, when a route is configured `Handler` hands
the unmodified request to the backend proxy, for every session state and
without loading the session or asking the SSO provider; when no route is
configured the response is not-found. -/
theorem C7_static_bypass (am : AuthMiddleware) (r : Request)
    (hst : isStaticFile r.URL.Path = true) :
    (∀ route, am.proxyManager.GetRoute = some route →
      Handler am r =
        { response := .proxy r, saved := none, calls := [.GetRoute, .GetProxy] }) ∧
    (am.proxyManager.GetRoute = none → (Handler am r).response = .notFound) := by
  have hex := not_exempt_of_static r hst
  refine ⟨fun route hroute => Handler_static am r route hex hroute hst, fun hroute => ?_⟩
  rw [Handler_no_route am r hex hroute]

/-- C7 at a concrete input: a script under the route prefix, asked for by a
first-time visitor, goes to the proxy with its path as it came. -/
theorem C7_static_bypass_witness :
    isStaticFile (exRequest "/app/main.js" "v=3" []).URL.Path = true ∧
    (Handler (exMiddleware (some exRoute) emptySession true alice)
        (exRequest "/app/main.js" "v=3" [])).response =
      .proxy (exRequest "/app/main.js" "v=3" []) ∧
    ((∀ route, (exMiddleware (some exRoute) emptySession true alice).proxyManager.GetRoute
          = some route →
        Handler (exMiddleware (some exRoute) emptySession true alice)
            (exRequest "/app/main.js" "v=3" []) =
          { response := .proxy (exRequest "/app/main.js" "v=3" []), saved := none,
            calls := [.GetRoute, .GetProxy] }) ∧
      ((exMiddleware (some exRoute) emptySession true alice).proxyManager.GetRoute = none →
        (Handler (exMiddleware (some exRoute) emptySession true alice)
          (exRequest "/app/main.js" "v=3" [])).response = .notFound)) :=
  ⟨by decide, by decide,
    C7_static_bypass (exMiddleware (some exRoute) emptySession true alice)
      (exRequest "/app/main.js" "v=3" []) (by decide)⟩

/-- C7 as stated fails: without a configured route a request for a script is
answered with not-found, not forwarded to the proxy, even for an
authenticated session. -/
theorem C7_static_bypass_counterexample :
    isStaticFile (exRequest "/app/main.js" "" []).URL.Path = true ∧
    (exMiddleware none aliceSession true alice).proxyManager.GetRoute = none ∧
    (Handler (exMiddleware none aliceSession true alice)
        (exRequest "/app/main.js" "" [])).response = .notFound ∧
    (Handler (exMiddleware none aliceSession true alice)
        (exRequest "/app/main.js" "" [])).response ≠
      .proxy (exRequest "/app/main.js" "" []) := by
  decide

/-! ## C8: exempt paths -/

/-- C8: for every request whose path is exactly `/health` or `/logout`,
`Handler` calls `next` with the unmodified request, whatever the query
string, the session, the route configuration and the SSO answers; it saves no
session and calls no collaborator (no session load, no SSO operation). -/
theorem C8_exemption_precedence (am : AuthMiddleware) (r : Request)
    (h : r.URL.Path = "/health" ∨ r.URL.Path = "/logout") :
    Handler am r = { response := .next r, saved := none, calls := [] } :=
  Handler_exempt am r h

/-- C8 at a concrete input: `/logout?ticket=ST-1` with no route configured
and an authenticated session. -/
theorem C8_exemption_precedence_witness :
    ((exRequest "/logout" "ticket=ST-1" []).URL.Path = "/health" ∨
      (exRequest "/logout" "ticket=ST-1" []).URL.Path = "/logout") ∧
    Handler (exMiddleware none aliceSession true alice) (exRequest "/logout" "ticket=ST-1" []) =
      { response := .next (exRequest "/logout" "ticket=ST-1" []), saved := none, calls := [] } :=
  ⟨by decide,
    C8_exemption_precedence (exMiddleware none aliceSession true alice)
      (exRequest "/logout" "ticket=ST-1" []) (by decide)⟩

/-! ## C9: no route -/

/-- C9: when `GetRoute` returns no route, every request that is neither
exempt nor a static asset gets a not-found response, which is neither a
redirect nor a forward, for every session and every SSO answer; no session
is loaded or saved. -/
theorem C9_no_route_guard (am : AuthMiddleware) (r : Request)
    (hroute : am.proxyManager.GetRoute = none)
    (hex : ¬ Exempt r) (_hst : isStaticFile r.URL.Path = false) :
    Handler am r = { response := .notFound, saved := none, calls := [.GetRoute] } ∧
    (Handler am r).response.isRedirect302 = false ∧
    (Handler am r).response.isForward = false := by
  rw [Handler_no_route am r hex hroute]
  exact ⟨rfl, rfl, rfl⟩

/-- C9 at a concrete input: an authenticated session asking for `/app/foo`
while no route is configured. -/
theorem C9_no_route_guard_witness :
    ((exMiddleware none aliceSession true alice).proxyManager.GetRoute = none ∧
      ¬ Exempt (exRequest "/app/foo" "" []) ∧
      isStaticFile (exRequest "/app/foo" "" []).URL.Path = false) ∧
    (Handler (exMiddleware none aliceSession true alice) (exRequest "/app/foo" "" []) =
        { response := .notFound, saved := none, calls := [.GetRoute] } ∧
      (Handler (exMiddleware none aliceSession true alice)
        (exRequest "/app/foo" "" [])).response.isRedirect302 = false ∧
      (Handler (exMiddleware none aliceSession true alice)
        (exRequest "/app/foo" "" [])).response.isForward = false) :=
  ⟨⟨by decide, by decide, by decide⟩,
    C9_no_route_guard (exMiddleware none aliceSession true alice)
      (exRequest "/app/foo" "" []) (by decide) (by decide) (by decide)⟩

/-! ## C10: the redirect target after authentication -/

/-- C10: when the ticket of a login callback is validated and the session
save succeeds, the response is `http.Redirect` with status 302 and a target
that is the route path when the route path is neither `""` nor `"/"`, and
the empty string when the route path is `""` or `"/"`. -/
theorem C10_post_authentication_redirect (am : AuthMiddleware) (r : Request)
    (route : RouteConfig) (ticket : String) (userInfo : UserInfo)
    (hroute : am.proxyManager.GetRoute = some route)
    (hex : ¬ Exempt r) (hst : isStaticFile r.URL.Path = false)
    (hna : ¬ (am.store.Get r).Authenticated)
    (hl : am.authProvider.IsLoginPath r.URL.String = true)
    (ht : am.authProvider.ExtractTicket r.URL.String = .ok ticket)
    (hv : am.authProvider.ValidateTicket ticket
      (am.authProvider.BuildServiceURL r (if route.Path = "" then "/" else route.Path))
        = .ok userInfo)
    (hsave : ∀ s, (Handler am r).saved = some s → am.store.Save r s = true) :
    ∃ target, (Handler am r).response = .redirect target 302 ∧
      (route.Path ≠ "" ∧ route.Path ≠ "/" → target = route.Path) ∧
      (route.Path = "" ∨ route.Path = "/" → target = "") := by
  obtain ⟨hsaved, hresp⟩ := Handler_validated am r route ticket _ hex hroute hst hna hl ht hv
  refine ⟨_, hresp (hsave _ hsaved), ?_, ?_⟩
  · rintro ⟨h1, h2⟩
    simp [servicePathOf, h1, h2]
  · rintro (h | h) <;> simp [servicePathOf, h]

/-- C10 at the input of the specification: route path `/app` gives the
redirect target `/app`. -/
theorem C10_post_authentication_redirect_witness :
    (Handler (exMiddleware (some exRoute) emptySession true alice)
        (exRequest "/app" "ticket=ST-1" [])).response = .redirect "/app" 302 ∧
    ∃ target, (Handler (exMiddleware (some exRoute) emptySession true alice)
        (exRequest "/app" "ticket=ST-1" [])).response = .redirect target 302 ∧
      (exRoute.Path ≠ "" ∧ exRoute.Path ≠ "/" → target = exRoute.Path) ∧
      (exRoute.Path = "" ∨ exRoute.Path = "/" → target = "") :=
  ⟨by decide,
    C10_post_authentication_redirect (exMiddleware (some exRoute) emptySession true alice)
      (exRequest "/app" "ticket=ST-1" []) exRoute "ST-1" alice
      (by decide) (by decide) (by decide) (by decide) (by decide) rfl rfl
      (fun _ _ => rfl)⟩

/-! ## C11: the static-file test -/

theorem HasSuffix_iff (s suf : String) : HasSuffix s suf = true ↔ ∃ pre, s = pre ++ suf := by
  constructor
  · intro h
    simp only [HasSuffix, Bool.and_eq_true, decide_eq_true_eq, beq_iff_eq] at h
    refine ⟨String.mk (s.data.take (s.data.length - suf.data.length)), ?_⟩
    apply String.ext
    rw [String.data_append]
    conv_lhs => rw [← List.take_append_drop (s.data.length - suf.data.length) s.data]
    rw [h.2]
  · rintro ⟨pre, rfl⟩
    simp [HasSuffix, String.data_append]

theorem Regex.mem_run_word (w s t : List Char) :
    t ∈ (Regex.word w).run s ↔ s = w ++ t := by
  induction w generalizing s with
  | nil => simp [Regex.word, Regex.run, eq_comm]
  | cons c w ih =>
    simp only [Regex.word, Regex.run, List.mem_flatMap, ih]
    cases s with
    | nil => simp
    | cons d u =>
      by_cases hd : d = c
      · subst hd; simp
      · have hd1 : ¬ c = d := fun h => hd h.symm
        simp [hd, hd1]

theorem Regex.mem_run_oneOf (a : Regex) (l : List Regex) (s t : List Char) :
    t ∈ (Regex.oneOf a l).run s ↔ ∃ x ∈ a :: l, t ∈ x.run s := by
  induction l generalizing a with
  | nil => simp [Regex.oneOf]
  | cons b rest ih =>
    simp only [Regex.oneOf, Regex.run, List.mem_append, ih b]
    simp

theorem Regex.matchList_iff (re : Regex) (s : List Char) :
    re.matchList s = true ↔ ∃ pre suf t, s = pre ++ suf ∧ t ∈ re.run suf := by
  induction s with
  | nil =>
    simp only [Regex.matchList, Bool.not_eq_true', List.isEmpty_eq_false_iff_exists_mem]
    constructor
    · rintro ⟨t, ht⟩
      exact ⟨[], [], t, rfl, ht⟩
    · rintro ⟨pre, suf, t, h, ht⟩
      obtain ⟨-, rfl⟩ := List.append_eq_nil.1 h.symm
      exact ⟨t, ht⟩
  | cons c u ih =>
    simp only [Regex.matchList, Bool.or_eq_true, Bool.not_eq_true',
      List.isEmpty_eq_false_iff_exists_mem, ih]
    constructor
    · rintro (⟨t, ht⟩ | ⟨pre, suf, t, h, ht⟩)
      · exact ⟨[], c :: u, t, rfl, ht⟩
      · exact ⟨c :: pre, suf, t, by rw [h]; rfl, ht⟩
    · rintro ⟨pre, suf, t, h, ht⟩
      cases pre with
      | nil => left; exact ⟨t, by rw [h]; exact ht⟩
      | cons d pre =>
        right
        rw [List.cons_append, List.cons.injEq] at h
        exact ⟨pre, suf, t, h.2, ht⟩

theorem Regex.mem_run_lit (c : Char) (s t : List Char) :
    t ∈ (Regex.lit c).run s ↔ s = c :: t := by
  cases s with
  | nil => simp [Regex.run]
  | cons d u =>
    by_cases hd : d = c
    · subst hd; simp [Regex.run, eq_comm]
    · simp [Regex.run, hd]

theorem Regex.mem_run_cat (a b : Regex) (s t : List Char) :
    t ∈ (Regex.cat a b).run s ↔ ∃ u, u ∈ a.run s ∧ t ∈ b.run u := by
  simp [Regex.run, List.mem_flatMap]

theorem Regex.mem_run_endText (s t : List Char) :
    t ∈ Regex.endText.run s ↔ s = [] ∧ t = [] := by
  by_cases hs : s = []
  · simp [Regex.run, hs]
  · simp [Regex.run, hs]

theorem Regex.mem_run_dotted (e0 : String) (es : List String) (s t : List Char) :
    t ∈ (Regex.cat (.lit '.')
        (.cat (Regex.oneOf (Regex.word e0.data) (es.map fun e => Regex.word e.data))
          .endText)).run s ↔
      t = [] ∧ ∃ ext ∈ e0 :: es, s = '.' :: ext.data := by
  rw [Regex.mem_run_cat]
  constructor
  · rintro ⟨u, hu, ht⟩
    rw [Regex.mem_run_lit] at hu
    rw [Regex.mem_run_cat] at ht
    obtain ⟨v, hv, ht⟩ := ht
    rw [Regex.mem_run_endText] at ht
    obtain ⟨rfl, rfl⟩ := ht
    rw [Regex.mem_run_oneOf] at hv
    obtain ⟨x, hx, hv⟩ := hv
    refine ⟨rfl, ?_⟩
    rw [← List.map_cons (fun e => Regex.word e.data) e0 es, List.mem_map] at hx
    obtain ⟨ext, hext, rfl⟩ := hx
    rw [Regex.mem_run_word, List.append_nil] at hv
    exact ⟨ext, hext, by rw [hu, hv]⟩
  · rintro ⟨rfl, ext, hext, rfl⟩
    refine ⟨ext.data, (Regex.mem_run_lit _ _ _).2 rfl, ?_⟩
    rw [Regex.mem_run_cat]
    refine ⟨[], ?_, (Regex.mem_run_endText _ _).2 ⟨rfl, rfl⟩⟩
    rw [Regex.mem_run_oneOf]
    refine ⟨Regex.word ext.data, ?_, ?_⟩
    · rw [← List.map_cons (fun e => Regex.word e.data) e0 es, List.mem_map]
      exact ⟨ext, hext, rfl⟩
    · rw [Regex.mem_run_word, List.append_nil]

theorem staticFileRegex_matchList_iff (s : List Char) :
    staticFileRegex.matchList s = true ↔
      ∃ pre, ∃ ext ∈ staticFileExtensions, s = pre ++ '.' :: ext.data := by
  rw [Regex.matchList_iff]
  have key : ∀ suf t : List Char, t ∈ staticFileRegex.run suf ↔
      t = [] ∧ ∃ ext ∈ staticFileExtensions, suf = '.' :: ext.data := fun suf t =>
    Regex.mem_run_dotted "ico"
      ["jpg", "jpeg", "png", "gif", "svg", "js", "css", "swf", "eot", "ttf", "otf", "woff",
       "woff2"] suf t
  constructor
  · rintro ⟨pre, suf, t, hs, ht⟩
    obtain ⟨-, ext, hext, rfl⟩ := (key suf t).1 ht
    exact ⟨pre, ext, hext, hs⟩
  · rintro ⟨pre, ext, hext, hs⟩
    exact ⟨pre, '.' :: ext.data, [], hs, (key _ _).2 ⟨rfl, ext, hext, rfl⟩⟩

theorem isStaticFile_iff_suffix (path : String) :
    isStaticFile path = true ↔
      ∃ pre, ∃ ext ∈ staticFileExtensions, path = pre ++ "." ++ ext := by
  simp only [isStaticFile, List.any_eq_true, HasSuffix_iff]
  constructor
  · rintro ⟨ext, hext, pre, h⟩
    exact ⟨pre, ext, hext, by rw [h, String.append_assoc]⟩
  · rintro ⟨pre, ext, hext, h⟩
    exact ⟨ext, hext, pre, by rw [h, String.append_assoc]⟩

theorem isStaticFile_eq_MatchString (path : String) :
    isStaticFile path = staticFileRegex.MatchString path := by
  rw [Bool.eq_iff_iff, isStaticFile_iff_suffix, Regex.MatchString, staticFileRegex_matchList_iff]
  have hd : ∀ pre ext : String, (pre ++ "." ++ ext).data = pre.data ++ '.' :: ext.data := by
    intro pre ext
    rw [String.data_append, String.data_append, List.append_assoc]
    rfl
  constructor
  · rintro ⟨pre, ext, hext, h⟩
    exact ⟨pre.data, ext, hext, by rw [h, hd]⟩
  · rintro ⟨pre, ext, hext, h⟩
    exact ⟨String.mk pre, ext, hext, String.ext (by rw [h, hd])⟩

/-- C11: `isStaticFile(path)`, which is `staticFileRegex.MatchString(path)`,
is true if and only if the path ends with a dot followed by one of `ico`,
`jpg`, `jpeg`, `png`, `gif`, `svg`, `js`, `css`, `swf`, `eot`, `ttf`, `otf`,
`woff`, `woff2`, compared character by character at the very end of the
path. -/
theorem C11_isStaticFile_iff (path : String) :
    isStaticFile path = staticFileRegex.MatchString path ∧
    (isStaticFile path = true ↔
      ∃ pre ext,
        ext ∈ ["ico", "jpg", "jpeg", "png", "gif", "svg", "js", "css", "swf", "eot", "ttf",
          "otf", "woff", "woff2"] ∧
        path = pre ++ "." ++ ext) := by
  refine ⟨isStaticFile_eq_MatchString path, ?_⟩
  rw [isStaticFile_iff_suffix]
  constructor
  · rintro ⟨pre, ext, hext, h⟩
    exact ⟨pre, ext, hext, h⟩
  · rintro ⟨pre, ext, hext, h⟩
    exact ⟨pre, ext, hext, h⟩

/-! ## C12 and C13: logout -/

theorem Handler_not_forward_of_not_authenticated (am : AuthMiddleware) (r : Request)
    (hex : ¬ Exempt r) (hst : isStaticFile r.URL.Path = false)
    (hna : ¬ (am.store.Get r).Authenticated) :
    (Handler am r).response.isForward = false := by
  cases hroute : am.proxyManager.GetRoute with
  | none =>
    rw [Handler_no_route am r hex hroute]
    rfl
  | some route =>
    rcases Handler_unauthenticated_cases am r route hex hroute hst hna with h | h
    · rw [h]; rfl
    · obtain ⟨_, _, _, _, _, _, _, _, h⟩ := h
      rw [h]; rfl

/-- C12: whatever session the request of `Logout` carries, the session that
`Logout` hands to `session.Save` has an empty value map and `MaxAge = -1`, so
it is not authenticated; a following request that carries this session and
is neither exempt nor static is not forwarded, whatever the route and the
SSO provider. -/
theorem C12_logout_postcondition (am : AuthMiddleware) (r : Request)
    (am1 : AuthMiddleware) (r1 : Request)
    (hcarry : am1.store.Get r1 = Logout am r)
    (hex : ¬ Exempt r1) (hst : isStaticFile r1.URL.Path = false) :
    (Logout am r).Values = [] ∧ (Logout am r).MaxAge = -1 ∧
    ¬ (Logout am r).Authenticated ∧
    (Handler am1 r1).response.isForward = false := by
  refine ⟨rfl, rfl, Logout_not_authenticated am r, ?_⟩
  apply Handler_not_forward_of_not_authenticated am1 r1 hex hst
  rw [hcarry]
  exact Logout_not_authenticated am r

/-- C12 at a concrete input: `alice` logs out and then asks for `/app/foo`
with the session that `Logout` saved. -/
theorem C12_logout_postcondition_witness :
    (Handler (exMiddleware (some exRoute)
        (Logout (exMiddleware (some exRoute) aliceSession true alice)
          (exRequest "/logout" "" [])) true alice)
      (exRequest "/app/foo" "" [])).response =
      .redirect "https://sso.example/login?service=http://gw.example/app" 302 ∧
    ((Logout (exMiddleware (some exRoute) aliceSession true alice)
        (exRequest "/logout" "" [])).Values = [] ∧
      (Logout (exMiddleware (some exRoute) aliceSession true alice)
        (exRequest "/logout" "" [])).MaxAge = -1 ∧
      ¬ (Logout (exMiddleware (some exRoute) aliceSession true alice)
        (exRequest "/logout" "" [])).Authenticated ∧
      (Handler (exMiddleware (some exRoute)
          (Logout (exMiddleware (some exRoute) aliceSession true alice)
            (exRequest "/logout" "" [])) true alice)
        (exRequest "/app/foo" "" [])).response.isForward = false) :=
  ⟨by decide,
    C12_logout_postcondition (exMiddleware (some exRoute) aliceSession true alice)
      (exRequest "/logout" "" [])
      (exMiddleware (some exRoute)
        (Logout (exMiddleware (some exRoute) aliceSession true alice)
          (exRequest "/logout" "" [])) true alice)
      (exRequest "/app/foo" "" []) rfl (by decide) (by decide)⟩

/-- C13: a second `Logout`, on a request that carries the session the first
`Logout` saved, saves the same session again: empty values and
`MaxAge = -1`. -/
theorem C13_logout_idempotent (am : AuthMiddleware) (r : Request)
    (am1 : AuthMiddleware) (r1 : Request)
    (hcarry : am1.store.Get r1 = Logout am r) :
    Logout am1 r1 = Logout am r ∧
    (Logout am1 r1).Values = [] ∧ (Logout am1 r1).MaxAge = -1 := by
  refine ⟨?_, rfl, rfl⟩
  simp only [Logout, hcarry]

/-- C13 at a concrete input: `alice` logs out twice. -/
theorem C13_logout_idempotent_witness :
    Logout (exMiddleware (some exRoute)
        (Logout (exMiddleware (some exRoute) aliceSession true alice)
          (exRequest "/logout" "" [])) true alice)
      (exRequest "/logout" "" []) =
        Logout (exMiddleware (some exRoute) aliceSession true alice)
          (exRequest "/logout" "" []) ∧
    (Logout (exMiddleware (some exRoute)
        (Logout (exMiddleware (some exRoute) aliceSession true alice)
          (exRequest "/logout" "" [])) true alice)
      (exRequest "/logout" "" [])).Values = [] ∧
    (Logout (exMiddleware (some exRoute)
        (Logout (exMiddleware (some exRoute) aliceSession true alice)
          (exRequest "/logout" "" [])) true alice)
      (exRequest "/logout" "" [])).MaxAge = -1 :=
  C13_logout_idempotent (exMiddleware (some exRoute) aliceSession true alice)
    (exRequest "/logout" "" [])
    (exMiddleware (some exRoute)
      (Logout (exMiddleware (some exRoute) aliceSession true alice)
        (exRequest "/logout" "" [])) true alice)
    (exRequest "/logout" "" []) rfl

/-! ## C14: the session invariant -/

theorem storeIdentity_invariant (session : Session) (userInfo : UserInfo) :
    (storeIdentity session userInfo).UserIffAuthenticated := by
  unfold Session.UserIffAuthenticated Session.Authenticated
  rw [storeIdentity_user, storeIdentity_authenticated]
  simp

theorem Logout_invariant (am : AuthMiddleware) (r : Request) :
    (Logout am r).UserIffAuthenticated := by
  simp [Session.UserIffAuthenticated, Session.Authenticated, Logout, ValueMap.get]

/-- C14: the predicate "the key `"user"` is set if and only if
`authenticated` is `true`" holds of the empty session, and it holds of every
session that `Handler` or `Logout` hands to `session.Save` for a request
whose loaded session satisfies it, whatever the collaborators answer. -/
theorem C14_session_invariant (am : AuthMiddleware) (r : Request) (s : Session)
    (maxAge : Int)
    (hs : (Handler am r).saved = some s ∨ s = Logout am r)
    (_hpre : (am.store.Get r).UserIffAuthenticated) :
    ({ Values := [], MaxAge := maxAge } : Session).UserIffAuthenticated ∧
    s.UserIffAuthenticated := by
  refine ⟨by simp [Session.UserIffAuthenticated, Session.Authenticated, ValueMap.get], ?_⟩
  rcases hs with hs | hs
  · obtain ⟨_, _, userInfo, _, _, _, _, rfl⟩ := Handler_saved am r s hs
    exact storeIdentity_invariant _ _
  · subst hs
    exact Logout_invariant am r

/-- C14 at a concrete input: the session saved for `alice` on her login
callback. -/
theorem C14_session_invariant_witness :
    ((Handler (exMiddleware (some exRoute) emptySession true alice)
        (exRequest "/app" "ticket=ST-1" [])).saved = some aliceSession ∧
      ((exMiddleware (some exRoute) emptySession true alice).store.Get
        (exRequest "/app" "ticket=ST-1" [])).UserIffAuthenticated) ∧
    (({ Values := [], MaxAge := 604800 } : Session).UserIffAuthenticated ∧
      aliceSession.UserIffAuthenticated) :=
  ⟨⟨by decide, by decide⟩,
    C14_session_invariant (exMiddleware (some exRoute) emptySession true alice)
      (exRequest "/app" "ticket=ST-1" []) aliceSession 604800 (Or.inl (by decide))
      (by decide)⟩

/-! ## C15: the authenticated path and the SSO provider -/

/-- C15: with a configured route, for a request that is neither exempt nor
static and whose session has `authenticated = true`, `Handler` forwards the
request to `next` and calls none of `IsLoginPath`, `ExtractTicket`,
`BuildServiceURL`, `ValidateTicket`, `GetLoginURL`; what it does is the same
for every SSO provider, also when the URL is a login callback. -/
theorem C15_authenticated_path_skips_sso (am : AuthMiddleware) (r : Request)
    (route : RouteConfig)
    (hroute : am.proxyManager.GetRoute = some route)
    (hex : ¬ Exempt r) (hst : isStaticFile r.URL.Path = false)
    (hauth : (am.store.Get r).Authenticated) :
    (Handler am r).response.isForward = true ∧
    (Handler am r).calls = [.GetRoute, .StoreGet, .StoreGet] ∧
    (∀ c ∈ (Handler am r).calls, c.isSSO = false) ∧
    ∀ p : Provider, Handler { am with authProvider := p } r = Handler am r := by
  rw [Handler_authenticated am r route hex hroute hst hauth]
  refine ⟨rfl, rfl, ?_, ?_⟩
  · intro c hc
    simp only [List.mem_cons, List.mem_singleton, List.not_mem_nil, or_false] at hc
    rcases hc with rfl | rfl | rfl <;> rfl
  · intro p
    rw [Handler_authenticated { am with authProvider := p } r route hex hroute hst hauth]
    rfl

/-- C15 at a concrete input: `alice`, already authenticated, opens a login
callback URL with a ticket. -/
theorem C15_authenticated_path_skips_sso_witness :
    ((exMiddleware (some exRoute) aliceSession true alice).authProvider.IsLoginPath
        (exRequest "/app" "ticket=ST-1" []).URL.String = true) ∧
    ((Handler (exMiddleware (some exRoute) aliceSession true alice)
        (exRequest "/app" "ticket=ST-1" [])).response.isForward = true ∧
      (Handler (exMiddleware (some exRoute) aliceSession true alice)
        (exRequest "/app" "ticket=ST-1" [])).calls = [.GetRoute, .StoreGet, .StoreGet] ∧
      (∀ c ∈ (Handler (exMiddleware (some exRoute) aliceSession true alice)
        (exRequest "/app" "ticket=ST-1" [])).calls, c.isSSO = false) ∧
      ∀ p : Provider,
        Handler { exMiddleware (some exRoute) aliceSession true alice with authProvider := p }
            (exRequest "/app" "ticket=ST-1" []) =
          Handler (exMiddleware (some exRoute) aliceSession true alice)
            (exRequest "/app" "ticket=ST-1" [])) :=
  ⟨by decide,
    C15_authenticated_path_skips_sso (exMiddleware (some exRoute) aliceSession true alice)
      (exRequest "/app" "ticket=ST-1" []) exRoute (by decide) (by decide) (by decide)
      (by decide)⟩

/-! ## C16: what the middleware changes in a forwarded request -/

theorem Header.Values_Set_of_ne (h : Header) (k k1 v : String) (hne : k ≠ k1) :
    (h.Set k v).Values k1 = h.Values k1 := by
  have hf : ((h.Set k v).find? fun e => e.1 == k1) = h.find? fun e => e.1 == k1 := by
    simp only [Header.Set]
    rw [List.find?_cons_of_neg _ (by simpa using hne)]
    exact find?_filter_ne_key h k k1 hne
  simp only [Header.Values, hf]

theorem setIdentityHeaders_other (session : Session) (user : String) (h : Header)
    (k : String) (h1 : k ≠ "X-User") (h2 : k ≠ "X-Employee-Name") :
    (setIdentityHeaders session user h).Values k = h.Values k := by
  unfold setIdentityHeaders
  split
  · simp only []
    split
    · rw [Header.Values_Set_of_ne _ _ _ _ (Ne.symm h2),
        Header.Values_Set_of_ne _ _ _ _ (Ne.symm h1)]
    · rw [Header.Values_Set_of_ne _ _ _ _ (Ne.symm h1)]
  · rfl

/-- C16: whenever `Handler` hands a request on, to `next` or to the proxy,
the request handed on has the method, the query, the host and the remote
address of the incoming request, and the same values under every header
other than `X-User` and `X-Employee-Name`; only those two headers and the
URL path can differ.  When the incoming request is exempt or a static
asset, the request handed on is the incoming request, with no change. -/
theorem C16_forwarded_request_frame (am : AuthMiddleware) (r r1 : Request)
    (h : (Handler am r).response = .next r1 ∨ (Handler am r).response = .proxy r1) :
    r1.Method = r.Method ∧ r1.URL.RawQuery = r.URL.RawQuery ∧
    r1.Host = r.Host ∧ r1.RemoteAddr = r.RemoteAddr ∧
    (∀ k, k ≠ "X-User" → k ≠ "X-Employee-Name" → r1.Header.Values k = r.Header.Values k) ∧
    (Exempt r ∨ isStaticFile r.URL.Path = true → r1 = r) := by
  by_cases hex : Exempt r
  · rw [Handler_exempt am r hex] at h
    have hr : r1 = r := by
      rcases h with h | h
      · exact (Response.next.inj h).symm
      · exact Response.noConfusion h
    subst hr
    exact ⟨rfl, rfl, rfl, rfl, fun _ _ _ => rfl, fun _ => rfl⟩
  · cases hroute : am.proxyManager.GetRoute with
    | none =>
      rw [Handler_no_route am r hex hroute] at h
      rcases h with h | h <;> exact Response.noConfusion h
    | some route =>
      by_cases hst : isStaticFile r.URL.Path = true
      · rw [Handler_static am r route hex hroute hst] at h
        have hr : r1 = r := by
          rcases h with h | h
          · exact Response.noConfusion h
          · exact (Response.proxy.inj h).symm
        subst hr
        exact ⟨rfl, rfl, rfl, rfl, fun _ _ _ => rfl, fun _ => rfl⟩
      · have hst1 : isStaticFile r.URL.Path = false := by simpa using hst
        by_cases hauth : (am.store.Get r).Authenticated
        · rw [Handler_authenticated am r route hex hroute hst1 hauth] at h
          have hr : r1 = { r with
              Header := setIdentityHeaders (am.store.Get r) (GetUser am r) r.Header
              URL := { r.URL with Path := stripRoutePrefix route.Path r.URL.Path } } := by
            rcases h with h | h
            · exact (Response.next.inj h).symm
            · exact Response.noConfusion h
          subst hr
          refine ⟨rfl, rfl, rfl, rfl, ?_, ?_⟩
          · intro k h1 h2
            exact setIdentityHeaders_other _ _ _ k h1 h2
          · rintro (h1 | h1)
            · exact absurd h1 hex
            · exact absurd h1 hst
        · have hnf := Handler_not_forward_of_not_authenticated am r hex hst1 hauth
          rcases h with h | h <;> rw [h] at hnf <;> exact Bool.noConfusion hnf

/-- C16 at a concrete input: `alice` asks for `/app/foo?page=2` with a
`Cookie`, an `Accept` and a forged `X-User` header. -/
theorem C16_forwarded_request_frame_witness :
    (Handler (exMiddleware (some exRoute) aliceSession true alice) browserRequest).response =
      .next forwardedRequest ∧
    (forwardedRequest.Method = browserRequest.Method ∧
      forwardedRequest.URL.RawQuery = browserRequest.URL.RawQuery ∧
      forwardedRequest.Host = browserRequest.Host ∧
      forwardedRequest.RemoteAddr = browserRequest.RemoteAddr ∧
      (∀ k, k ≠ "X-User" → k ≠ "X-Employee-Name" →
        forwardedRequest.Header.Values k = browserRequest.Header.Values k) ∧
      (Exempt browserRequest ∨ isStaticFile browserRequest.URL.Path = true →
        forwardedRequest = browserRequest)) :=
  ⟨by decide,
    C16_forwarded_request_frame (exMiddleware (some exRoute) aliceSession true alice)
      browserRequest forwardedRequest (Or.inl (by decide))⟩

/-! ## C17: forwarded paths and the route prefix -/

/-- C17 fails on the code: with the route prefix `/app` (not empty, not
`"/"`), the request path `/application/x` starts with `/` and with the
prefix, and `Handler` hands it to `next` as `lication/x`, which does not
start with `/`. -/
theorem C17_forwarded_path_not_root_relative :
    exRoute.Path ≠ "" ∧ exRoute.Path ≠ "/" ∧
    HasPrefix (exRequest "/application/x" "" []).URL.Path "/" = true ∧
    (Handler (exMiddleware (some exRoute) aliceSession true alice)
        (exRequest "/application/x" "" [])).response =
      .next (exRequest "lication/x" ""
        [("X-Employee-Name", ["Alice"]), ("X-User", ["u1"])]) ∧
    HasPrefix (exRequest "lication/x" ""
      [("X-Employee-Name", ["Alice"]), ("X-User", ["u1"])]).URL.Path "/" = false := by
  decide

/-! ## C18: identity headers sent by the client -/

/-- C18 fails on the code: the SSO server answers the ticket with a user
that has no display name, so the saved session `bobSession` is authenticated
and has no `employeeName`.  Two requests with that session that differ only
in the value of their `X-Employee-Name` header reach `next` with different
`X-Employee-Name` headers, each the one its client sent. -/
theorem C18_client_identity_header_reaches_backend :
    (Handler (exMiddleware (some exRoute) emptySession true bob)
        (exRequest "/app" "ticket=ST-1" [])).saved = some bobSession ∧
    bobSession.Authenticated ∧
    (Handler (exMiddleware (some exRoute) bobSession true bob)
        (exRequest "/app/foo" "" [("X-Employee-Name", ["CEO"])])).response =
      .next (exRequest "/foo" "" [("X-User", ["u2"]), ("X-Employee-Name", ["CEO"])]) ∧
    (Handler (exMiddleware (some exRoute) bobSession true bob)
        (exRequest "/app/foo" "" [("X-Employee-Name", ["Intern"])])).response =
      .next (exRequest "/foo" "" [("X-User", ["u2"]), ("X-Employee-Name", ["Intern"])]) ∧
    (exRequest "/foo" "" [("X-User", ["u2"]), ("X-Employee-Name", ["CEO"])]).Header.Get
        "X-Employee-Name" ≠
      (exRequest "/foo" "" [("X-User", ["u2"]), ("X-Employee-Name", ["Intern"])]).Header.Get
        "X-Employee-Name" := by
  decide

/-! ## C19: one service URL -/

theorem Handler_calls_service_url (am : AuthMiddleware) (r : Request) (route : RouteConfig)
    (hroute : am.proxyManager.GetRoute = some route) :
    (∀ ticket serviceURL, Call.ValidateTicket ticket serviceURL ∈ (Handler am r).calls →
      serviceURL =
        am.authProvider.BuildServiceURL r (if route.Path = "" then "/" else route.Path)) ∧
    (∀ serviceURL, Call.GetLoginURL serviceURL ∈ (Handler am r).calls →
      serviceURL =
        am.authProvider.BuildServiceURL r (if route.Path = "" then "/" else route.Path)) := by
  unfold Handler
  simp only [hroute]
  split
  · simp
  · split
    · simp
    · split
      · simp
      · split
        · split
          · split
            · split
              · simp
              · simp [redirectToLogin]
            · simp [redirectToLogin]
          · simp [redirectToLogin]
        · simp [redirectToLogin]

/-- C19: with a configured route, `Handler` consults `ValidateTicket` and
`GetLoginURL` at one and the same service URL, `BuildServiceURL(r, p)` with
`p` the route path, or `"/"` when the route path is empty.  Whatever
`Handler` does is unchanged when the provider is replaced by one that agrees
with it on `IsLoginPath`, `ExtractTicket` and `BuildServiceURL`, whose
`ValidateTicket` agrees at that service URL and whose `GetLoginURL` agrees
at that service URL, however the two differ at every other service URL; and
every `ValidateTicket` and `GetLoginURL` call of the run carries that
service URL. -/
theorem C19_service_url_consistency (am : AuthMiddleware) (r : Request) (route : RouteConfig)
    (hroute : am.proxyManager.GetRoute = some route) :
    (∀ p : Provider,
      p.IsLoginPath = am.authProvider.IsLoginPath →
      p.ExtractTicket = am.authProvider.ExtractTicket →
      p.BuildServiceURL = am.authProvider.BuildServiceURL →
      (∀ ticket,
        p.ValidateTicket ticket
            (am.authProvider.BuildServiceURL r (if route.Path = "" then "/" else route.Path)) =
          am.authProvider.ValidateTicket ticket
            (am.authProvider.BuildServiceURL r
              (if route.Path = "" then "/" else route.Path))) →
      p.GetLoginURL
          (am.authProvider.BuildServiceURL r (if route.Path = "" then "/" else route.Path)) =
        am.authProvider.GetLoginURL
          (am.authProvider.BuildServiceURL r (if route.Path = "" then "/" else route.Path)) →
      Handler { am with authProvider := p } r = Handler am r) ∧
    (∀ ticket serviceURL, Call.ValidateTicket ticket serviceURL ∈ (Handler am r).calls →
      serviceURL =
        am.authProvider.BuildServiceURL r (if route.Path = "" then "/" else route.Path)) ∧
    (∀ serviceURL, Call.GetLoginURL serviceURL ∈ (Handler am r).calls →
      serviceURL =
        am.authProvider.BuildServiceURL r (if route.Path = "" then "/" else route.Path)) := by
  refine ⟨?_, Handler_calls_service_url am r route hroute⟩
  intro p hl he hb hv hu
  unfold Handler redirectToLogin GetUser
  simp only [hroute, hl, he, hb, hv, hu]

/-- C19 at a concrete input: a login callback with a ticket that the SSO
server rejects; `ValidateTicket` and then `GetLoginURL` are called in the
same run, with the same service URL `http://gw.example/app`.  A provider
that answers differently at that service URL changes the outcome, for
`ValidateTicket` as for `GetLoginURL`. -/
theorem C19_service_url_consistency_witness :
    (Handler (exMiddleware (some exRoute) emptySession true alice)
        (exRequest "/app" "ticket=ST-9" [])).calls =
      [.GetRoute, .StoreGet, .IsLoginPath "/app?ticket=ST-9",
       .ExtractTicket "/app?ticket=ST-9", .BuildServiceURL "/app",
       .ValidateTicket "ST-9" "http://gw.example/app", .BuildServiceURL "/app",
       .GetLoginURL "http://gw.example/app"] ∧
    Handler { exMiddleware (some exRoute) emptySession true alice with
        authProvider := otherLoginProvider alice } (exRequest "/app" "ticket=ST-9" []) ≠
      Handler (exMiddleware (some exRoute) emptySession true alice)
        (exRequest "/app" "ticket=ST-9" []) ∧
    Handler { exMiddleware (some exRoute) emptySession true alice with
        authProvider := lenientProvider alice } (exRequest "/app" "ticket=ST-9" []) ≠
      Handler (exMiddleware (some exRoute) emptySession true alice)
        (exRequest "/app" "ticket=ST-9" []) ∧
    Handler { exMiddleware (some exRoute) emptySession true alice with
        authProvider := elsewhereProvider alice } (exRequest "/app" "ticket=ST-9" []) =
      Handler (exMiddleware (some exRoute) emptySession true alice)
        (exRequest "/app" "ticket=ST-9" []) :=
  ⟨by decide, by decide, by decide,
    (C19_service_url_consistency (exMiddleware (some exRoute) emptySession true alice)
      (exRequest "/app" "ticket=ST-9" []) exRoute (by decide)).1 (elsewhereProvider alice)
      rfl rfl rfl (fun _ => rfl) rfl⟩

end SsoGateway
